import Mathlib

/-!
Verification of the SMA-crossover signal pipeline.

The embedding models the two Python entry points of the repository
(the interactive app in `app.py` and the batch script `main.py`).
Close prices are modelled as rationals; a price frame is a list of
close prices together with the two optional SMA columns that
`add_moving_averages` installs.  Pandas `rolling(w, min_periods=1).mean()`
becomes `rollingMean`, `np.where(short > long, 1.0, 0.0)` becomes
`signalOf`, `Series.diff()` becomes `seriesDiff` (with `none` for the
leading NaN), and the `execute_trades` loop becomes `tradeEventsFrom`.
-/

namespace AlgoTrading

/-- Arithmetic mean of a list of rationals (sum divided by length;
the empty list is never averaged on any reachable path). -/
def listMean (l : List ℚ) : ℚ := l.sum / (l.length : ℚ)

/-- The slice `xs[max(0, i-w+1) .. i]` used by a rolling window of size `w`
at index `i` (natural subtraction makes the lower bound clamp at 0). -/
def windowSlice (w : ℕ) (xs : List ℚ) (i : ℕ) : List ℚ :=
  (xs.take (i + 1)).drop (i + 1 - w)

/-- Pandas `Series.rolling(window = w, min_periods = 1).mean()` over a series
with no missing values: entry `i` is the mean of the last at-most-`w`
entries ending at `i`. -/
def rollingMean (w : ℕ) (xs : List ℚ) : List ℚ :=
  (List.range xs.length).map (fun i => listMean (windowSlice w xs i))

/-- A pandas price DataFrame as the pipeline sees it: the mandatory
Close column, and the two SMA columns which are absent until
`add_moving_averages` installs them. -/
structure DataFrame where
  close : List ℚ
  smaShort : Option (List ℚ)
  smaLong : Option (List ℚ)
deriving DecidableEq

/-- `add_moving_averages(data, short_window, long_window)` from both
`app.py` and `main.py`: assigns the two rolling-mean columns on `data`
itself and returns `data`.  The returned frame is therefore also the
post-call state of the argument (the assignment is in place). -/
def add_moving_averages (data : DataFrame) (short_window long_window : ℕ) : DataFrame :=
  { data with
    smaShort := some (rollingMean short_window data.close)
    smaLong := some (rollingMean long_window data.close) }

/-- The state of the caller's frame after `add_moving_averages` returns:
the source assigns the new columns into the argument frame itself
(`data[...] = ...`) and returns that same object. -/
def add_moving_averages_post (data : DataFrame) (short_window long_window : ℕ) : DataFrame :=
  add_moving_averages data short_window long_window

/-- `np.where(sma_short > sma_long, 1.0, 0.0)` over the two aligned
SMA columns (strict comparison, elementwise). -/
def signalOf : List ℚ → List ℚ → List ℚ
  | s :: ss, t :: ts => (if t < s then 1 else 0) :: signalOf ss ts
  | _, _ => []

/-- Helper for `Series.diff()`: successive differences against the
running previous value. -/
def diffFrom (prev : ℚ) : List ℚ → List (Option ℚ)
  | [] => []
  | y :: ys => some (y - prev) :: diffFrom y ys

/-- Pandas `Series.diff()`: `none` (NaN) at index 0, and
`xs[i] - xs[i-1]` at every later index. -/
def seriesDiff : List ℚ → List (Option ℚ)
  | [] => []
  | x :: xs => none :: diffFrom x xs

/-- The signals frame built by `generate_signals`: price and the two SMA
columns copied from the input, the 0/1 signal column, and the `positions`
column produced by `diff()` (optional because of the leading NaN). -/
structure Signals where
  price : List ℚ
  smaShort : List ℚ
  smaLong : List ℚ
  signal : List ℚ
  positions : List (Option ℚ)
deriving DecidableEq

/-- `generate_signals(data)` from both `app.py` and `main.py`: builds a new
frame indexed like `data`, copies Close and the two SMA columns, sets
`signal = np.where(SMA_Short > SMA_Long, 1.0, 0.0)` and
`positions = signal.diff()`.  Reading a missing SMA column would raise
`KeyError`, modelled as `none`.  The input frame is only read, never
assigned to. -/
def generate_signals (data : DataFrame) : Option Signals :=
  match data.smaShort, data.smaLong with
  | some ss, some sl =>
      some { price := data.close
             smaShort := ss
             smaLong := sl
             signal := signalOf ss sl
             positions := seriesDiff (signalOf ss sl) }
  | _, _ => none

/-- The state of the caller's frame after `generate_signals` returns: the
body assigns only into its local `signals` frame, never into `data`. -/
def generate_signals_post (data : DataFrame) : DataFrame := data

/-- The two trade actions printed by `execute_trades` and shown in the
app's trade log. -/
inductive TradeAction where
  | BUY
  | SELL
deriving DecidableEq

/-- The branch taken by the `execute_trades` loop body on one row:
`positions == 1.0` prints BUY, `positions == -1.0` prints SELL, anything
else (including the NaN first row) prints nothing. -/
def tradeOfPosition (p : Option ℚ) : Option TradeAction :=
  if p = some 1 then some TradeAction.BUY
  else if p = some (-1) then some TradeAction.SELL
  else none

/-- The `for index, row in signals.iterrows()` loop of `execute_trades`,
carrying the running row index and collecting the emitted actions. -/
def tradeEventsFrom (i : ℕ) : List (Option ℚ) → List (ℕ × TradeAction)
  | [] => []
  | p :: ps =>
      match tradeOfPosition p with
      | some a => (i, a) :: tradeEventsFrom (i + 1) ps
      | none => tradeEventsFrom (i + 1) ps

/-- `execute_trades(signals)` from `main.py`: the sequence of
(row index, action) events it announces, in row order. -/
def execute_trades (signals : Signals) : List (ℕ × TradeAction) :=
  tradeEventsFrom 0 signals.positions

/-- The trade-log view of `app.py`: filter the rows whose `positions`
value is 1.0 or -1.0 and label each with BUY or SELL. -/
def trade_log (signals : Signals) : List (ℕ × TradeAction) :=
  ((signals.positions.enum.filter
      (fun p => decide (p.2 = some 1 ∨ p.2 = some (-1)))).map
    (fun p => (p.1, if p.2 = some 1 then TradeAction.BUY else TradeAction.SELL)))

/-- Outcome of `yf.download`: either a frame (possibly empty) or a raised
transport exception. -/
inductive DownloadResult where
  | success (data : DataFrame)
  | failure
deriving DecidableEq

/-- `fetch_data(ticker, start, end)` from both entry points: an empty
download and a raised exception both report an error message and
return `None`. -/
def fetch_data : DownloadResult → Option DataFrame
  | DownloadResult.success d => if d.close.isEmpty then none else some d
  | DownloadResult.failure => none

/-- What the top level of `app.py` surfaces: the sidebar window error, the
fetch error message, or the computed signals frame with its trade log. -/
inductive AppResult where
  | configError
  | dataError
  | results (signals : Signals) (events : List (ℕ × TradeAction))
deriving DecidableEq

/-- The main application logic of `app.py`: reject the configuration when
`long_window <= short_window` without fetching, otherwise fetch, add the
moving averages, generate signals and derive the trade log.  The `none`
branch after `generate_signals` is unreachable because the SMA columns
were just installed. -/
def appMain (dl : DownloadResult) (short_window long_window : ℕ) : AppResult :=
  if long_window ≤ short_window then AppResult.configError
  else
    match fetch_data dl with
    | none => AppResult.dataError
    | some data =>
        match generate_signals (add_moving_averages data short_window long_window) with
        | none => AppResult.dataError
        | some signals => AppResult.results signals (trade_log signals)

/-- `run_strategy()` from `main.py`, with the configuration constants as
parameters: fetch, return silently on `None`, otherwise add moving
averages, generate signals and execute the trades.  There is no window
validation anywhere on this path. -/
def run_strategy (dl : DownloadResult) (short_window long_window : ℕ) :
    Option (Signals × List (ℕ × TradeAction)) :=
  match fetch_data dl with
  | none => none
  | some price_data =>
      match generate_signals (add_moving_averages price_data short_window long_window) with
      | none => none
      | some trading_signals => some (trading_signals, execute_trades trading_signals)

/-- The computational core shared by both entry points (steps 2 to 4 of
each): moving averages, then signals, then the derived events. -/
def pipeline (data : DataFrame) (short_window long_window : ℕ) :
    Option (Signals × List (ℕ × TradeAction)) :=
  match generate_signals (add_moving_averages data short_window long_window) with
  | none => none
  | some sig => some (sig, execute_trades sig)

/-! Basic facts about the embedded operations. -/

lemma rollingMean_length (w : ℕ) (xs : List ℚ) :
    (rollingMean w xs).length = xs.length := by
  simp [rollingMean]

lemma rollingMean_getElem? (w : ℕ) (xs : List ℚ) {i : ℕ} (h : i < xs.length) :
    (rollingMean w xs)[i]? = some (listMean (windowSlice w xs i)) := by
  simp [rollingMean, List.getElem?_map, List.getElem?_range h]

lemma windowSlice_length (w : ℕ) (xs : List ℚ) {i : ℕ}
    (h : i < xs.length) : (windowSlice w xs i).length = min w (i + 1) := by
  simp only [windowSlice, List.length_drop, List.length_take]
  omega

lemma signalOf_length (ss sl : List ℚ) :
    (signalOf ss sl).length = min ss.length sl.length := by
  induction ss generalizing sl with
  | nil => cases sl <;> simp [signalOf]
  | cons s ss ih =>
    cases sl with
    | nil => simp [signalOf]
    | cons t ts => simp [signalOf, ih, Nat.succ_min_succ]

lemma signalOf_getElem? (ss sl : List ℚ) (i : ℕ)
    (h1 : i < ss.length) (h2 : i < sl.length) :
    (signalOf ss sl)[i]? = some (if sl.getD i 0 < ss.getD i 0 then 1 else 0) := by
  induction ss generalizing sl i with
  | nil => simp at h1
  | cons s ss ih =>
    cases sl with
    | nil => simp at h2
    | cons t ts =>
      cases i with
      | zero => simp [signalOf]
      | succ i =>
          simpa [signalOf] using ih ts i (by simpa using h1) (by simpa using h2)

lemma signalOf_mem {ss sl : List ℚ} {x : ℚ} (h : x ∈ signalOf ss sl) :
    x = 0 ∨ x = 1 := by
  induction ss generalizing sl with
  | nil => cases sl <;> simp [signalOf] at h
  | cons s ss ih =>
    cases sl with
    | nil => simp [signalOf] at h
    | cons t ts =>
      rcases (List.mem_cons).1 h with hx | hx
      · by_cases hlt : t < s <;> simp [hlt] at hx <;> simp [hx]
      · exact ih hx

lemma diffFrom_length (prev : ℚ) (ys : List ℚ) :
    (diffFrom prev ys).length = ys.length := by
  induction ys generalizing prev with
  | nil => rfl
  | cons y ys ih => simp [diffFrom, ih]

lemma seriesDiff_length (xs : List ℚ) : (seriesDiff xs).length = xs.length := by
  cases xs with
  | nil => rfl
  | cons x xs => simp [seriesDiff, diffFrom_length]

lemma diffFrom_getElem? (ys : List ℚ) :
    ∀ (prev : ℚ) (j : ℕ), j < ys.length →
      (diffFrom prev ys)[j]? = some (some (ys.getD j 0 - (prev :: ys).getD j 0)) := by
  induction ys with
  | nil => intro prev j h; simp at h
  | cons y ys ih =>
    intro prev j h
    cases j with
    | zero => simp [diffFrom]
    | succ j => simpa [diffFrom] using ih y j (by simpa using h)

lemma seriesDiff_getElem?_succ (xs : List ℚ) {i : ℕ}
    (h1 : 1 ≤ i) (h2 : i < xs.length) :
    (seriesDiff xs)[i]? = some (some (xs.getD i 0 - xs.getD (i - 1) 0)) := by
  cases xs with
  | nil => simp at h2
  | cons x xs =>
    obtain ⟨j, rfl⟩ : ∃ j, i = j + 1 := ⟨i - 1, by omega⟩
    have := diffFrom_getElem? xs x j (by simpa using h2)
    simpa [seriesDiff] using this

lemma seriesDiff_getElem?_zero {xs : List ℚ} (h : xs ≠ []) :
    (seriesDiff xs)[0]? = some none := by
  cases xs with
  | nil => simp at h
  | cons x xs => simp [seriesDiff]

lemma generate_signals_some {data : DataFrame} {sig : Signals}
    (h : generate_signals data = some sig) :
    ∃ ss sl, data.smaShort = some ss ∧ data.smaLong = some sl ∧
      sig = { price := data.close
              smaShort := ss
              smaLong := sl
              signal := signalOf ss sl
              positions := seriesDiff (signalOf ss sl) } := by
  cases hss : data.smaShort with
  | none => simp [generate_signals, hss] at h
  | some ss =>
    cases hsl : data.smaLong with
    | none => simp [generate_signals, hss, hsl] at h
    | some sl =>
      refine ⟨ss, sl, rfl, rfl, ?_⟩
      simp [generate_signals, hss, hsl] at h
      exact h.symm

/-! Facts about the trade-event loop. -/

lemma getElem?_cons_eq {α : Type} (a : α) (l : List α) (k : ℕ) :
    (a :: l)[k]? = if k = 0 then some a else l[k - 1]? := by
  cases k <;> simp

lemma mem_tradeEventsFrom (ps : List (Option ℚ)) :
    ∀ (n j : ℕ) (a : TradeAction),
      (j, a) ∈ tradeEventsFrom n ps ↔
        ∃ p, n ≤ j ∧ ps[j - n]? = some p ∧ tradeOfPosition p = some a := by
  induction ps with
  | nil => intro n j a; simp [tradeEventsFrom]
  | cons p ps ih =>
    intro n j a
    cases htr : tradeOfPosition p with
    | none =>
        rw [tradeEventsFrom, htr, ih (n + 1) j a]
        constructor
        · rintro ⟨q, hle, hget, htrq⟩
          refine ⟨q, by omega, ?_, htrq⟩
          rw [getElem?_cons_eq, if_neg (by omega), Nat.sub_sub]
          exact hget
        · rintro ⟨q, hle, hget, htrq⟩
          rcases Nat.eq_or_lt_of_le hle with rfl | hlt
          · rw [getElem?_cons_eq, if_pos (by omega)] at hget
            cases hget
            rw [htr] at htrq
            cases htrq
          · refine ⟨q, by omega, ?_, htrq⟩
            rw [getElem?_cons_eq, if_neg (by omega), Nat.sub_sub] at hget
            exact hget
    | some b =>
        rw [tradeEventsFrom, htr]
        constructor
        · intro hmem
          rcases (List.mem_cons).1 hmem with heq | hmem2
          · cases heq
            exact ⟨p, le_refl n, by simp, htr⟩
          · rcases (ih (n + 1) j a).1 hmem2 with ⟨q, hle, hget, htrq⟩
            refine ⟨q, by omega, ?_, htrq⟩
            rw [getElem?_cons_eq, if_neg (by omega), Nat.sub_sub]
            exact hget
        · rintro ⟨q, hle, hget, htrq⟩
          rcases Nat.eq_or_lt_of_le hle with rfl | hlt
          · rw [getElem?_cons_eq, if_pos (by omega)] at hget
            cases hget
            rw [htr] at htrq
            cases htrq
            exact List.mem_cons_self _ _
          · refine List.mem_cons_of_mem _ ((ih (n + 1) j a).2 ⟨q, by omega, ?_, htrq⟩)
            rw [getElem?_cons_eq, if_neg (by omega), Nat.sub_sub] at hget
            exact hget

lemma countP_tradeEventsFrom (q : TradeAction) (ps : List (Option ℚ)) :
    ∀ n : ℕ,
      (tradeEventsFrom n ps).countP (fun e => decide (e.2 = q)) =
        ps.countP (fun p => decide (tradeOfPosition p = some q)) := by
  induction ps with
  | nil => intro n; simp [tradeEventsFrom]
  | cons p ps ih =>
    intro n
    cases htr : tradeOfPosition p with
    | none => simp [tradeEventsFrom, htr, List.countP_cons, ih]
    | some b => simp [tradeEventsFrom, htr, List.countP_cons, ih (n + 1)]

lemma tradeEventsFrom_eq_filter_map (ps : List (Option ℚ)) :
    ∀ n : ℕ,
      tradeEventsFrom n ps =
        ((List.enumFrom n ps).filter
            (fun p => decide (p.2 = some 1 ∨ p.2 = some (-1)))).map
          (fun p => (p.1, if p.2 = some 1 then TradeAction.BUY else TradeAction.SELL)) := by
  induction ps with
  | nil => intro n; simp [tradeEventsFrom]
  | cons p ps ih =>
    intro n
    by_cases h1 : p = some 1
    · subst h1
      have htr : tradeOfPosition (some (1 : ℚ)) = some TradeAction.BUY := by
        rw [tradeOfPosition, if_pos rfl]
      simp [tradeEventsFrom, htr, List.enumFrom, List.filter, ih (n + 1)]
    · by_cases h2 : p = some (-1)
      · subst h2
        have htr : tradeOfPosition (some (-1 : ℚ)) = some TradeAction.SELL := by
          rw [tradeOfPosition, if_neg (by norm_num), if_pos rfl]
        norm_num [tradeEventsFrom, htr, List.enumFrom, List.filter, ih (n + 1)]
      · have htr : tradeOfPosition p = none := by
          rw [tradeOfPosition, if_neg h1, if_neg h2]
        simp [tradeEventsFrom, htr, h1, h2, List.enumFrom, List.filter, ih (n + 1)]

lemma trade_log_eq_execute_trades (sig : Signals) :
    trade_log sig = execute_trades sig := by
  rw [trade_log, execute_trades, tradeEventsFrom_eq_filter_map sig.positions 0, List.enum]

/-! The telescoping count of buy and sell events over a 0-or-1 signal. -/

lemma tradeStep (prev y : ℚ) (hprev : prev = 0 ∨ prev = 1) (hy : y = 0 ∨ y = 1) :
    ((if tradeOfPosition (some (y - prev)) = some TradeAction.BUY then (1 : ℚ) else 0) -
      (if tradeOfPosition (some (y - prev)) = some TradeAction.SELL then (1 : ℚ) else 0)) =
      y - prev := by
  rcases hprev with rfl | rfl <;> rcases hy with rfl | rfl <;>
    norm_num [tradeOfPosition] <;> simp

lemma diffFrom_buy_sub_sell (ys : List ℚ) :
    ∀ prev : ℚ, (prev = 0 ∨ prev = 1) → (∀ y ∈ ys, y = 0 ∨ y = 1) →
      (((diffFrom prev ys).countP
          (fun p => decide (tradeOfPosition p = some TradeAction.BUY)) : ℚ) -
        ((diffFrom prev ys).countP
          (fun p => decide (tradeOfPosition p = some TradeAction.SELL)) : ℚ)) =
        (prev :: ys).getLast (List.cons_ne_nil prev ys) - prev := by
  induction ys with
  | nil => intro prev hprev hys; simp [diffFrom]
  | cons y ys ih =>
    intro prev hprev hys
    have hy : y = 0 ∨ y = 1 := hys y (List.mem_cons_self y ys)
    have hrec := ih y hy (fun z hz => hys z (List.mem_cons_of_mem y hz))
    rw [List.getLast_cons (List.cons_ne_nil y ys)]
    rw [diffFrom, List.countP_cons, List.countP_cons]
    have hstep := tradeStep prev y hprev hy
    push_cast [apply_ite (fun n : ℕ => (n : ℚ)), decide_eq_true_eq]
    linarith [hrec, hstep]

/-- C1: over every non-empty price series and positive windows, the SMA
columns installed by `add_moving_averages` are total (same length as the
close column), and entry `i` of each is the arithmetic mean of the close
prices from index `max(0, i-w+1)` to `i`, a window of exactly
`min w (i+1)` samples. -/
theorem sma_expanding_window_mean (data : DataFrame) (short_window long_window : ℕ)
    (hs : 0 < short_window) (hl : 0 < long_window) (hne : data.close ≠ []) :
    ∃ ss sl,
      (add_moving_averages data short_window long_window).smaShort = some ss ∧
      (add_moving_averages data short_window long_window).smaLong = some sl ∧
      ss.length = data.close.length ∧ sl.length = data.close.length ∧
      ∀ i, i < data.close.length →
        ss[i]? = some (listMean (windowSlice short_window data.close i)) ∧
        (windowSlice short_window data.close i).length = min short_window (i + 1) ∧
        sl[i]? = some (listMean (windowSlice long_window data.close i)) ∧
        (windowSlice long_window data.close i).length = min long_window (i + 1) :=
  ⟨rollingMean short_window data.close, rollingMean long_window data.close, rfl, rfl,
    rollingMean_length _ _, rollingMean_length _ _, fun i hi =>
      ⟨rollingMean_getElem? _ _ hi, windowSlice_length _ _ hi,
        rollingMean_getElem? _ _ hi, windowSlice_length _ _ hi⟩⟩

theorem sma_expanding_window_mean_witness :
    0 < 2 ∧ 0 < 4 ∧ (DataFrame.mk [10, 20] none none).close ≠ [] ∧
      (∃ ss sl,
        (add_moving_averages (DataFrame.mk [10, 20] none none) 2 4).smaShort = some ss ∧
        (add_moving_averages (DataFrame.mk [10, 20] none none) 2 4).smaLong = some sl ∧
        ss.length = (DataFrame.mk [10, 20] none none).close.length ∧
        sl.length = (DataFrame.mk [10, 20] none none).close.length ∧
        ∀ i, i < (DataFrame.mk [10, 20] none none).close.length →
          ss[i]? = some (listMean (windowSlice 2 (DataFrame.mk [10, 20] none none).close i)) ∧
          (windowSlice 2 (DataFrame.mk [10, 20] none none).close i).length = min 2 (i + 1) ∧
          sl[i]? = some (listMean (windowSlice 4 (DataFrame.mk [10, 20] none none).close i)) ∧
          (windowSlice 4 (DataFrame.mk [10, 20] none none).close i).length = min 4 (i + 1)) :=
  ⟨by norm_num, by norm_num, by simp,
    sma_expanding_window_mean (DataFrame.mk [10, 20] none none) 2 4
      (by norm_num) (by norm_num) (by simp)⟩

/-- C3 counterexample: `run_strategy` in `main.py` performs no window
validation: with `short_window = 100` and `long_window = 40` (so
`long_window <= short_window`) it still fetches, computes both moving
averages and generates signals, surfacing no configuration error. -/
theorem run_strategy_ignores_window_order :
    40 ≤ 100 ∧
      run_strategy (DownloadResult.success (DataFrame.mk [10] none none)) 100 40 =
        some (Signals.mk [10] [10] [10] [0] [none], []) := by
  refine ⟨by norm_num, ?_⟩
  norm_num [run_strategy, fetch_data, add_moving_averages, generate_signals, rollingMean,
    listMean, windowSlice, signalOf, seriesDiff, diffFrom, execute_trades, tradeEventsFrom,
    List.range_succ]
  decide

/-- C3 amended: the `app.py` entry point rejects every configuration with
`long_window <= short_window` before consulting the fetch result, and its
outcome is then independent of the download; `run_strategy` in `main.py`
performs no such validation. -/
theorem app_rejects_long_le_short (dl : DownloadResult) (short_window long_window : ℕ)
    (h : long_window ≤ short_window) :
    appMain dl short_window long_window = AppResult.configError ∧
    appMain dl short_window long_window =
      appMain DownloadResult.failure short_window long_window := by
  constructor <;> simp [appMain, h]

theorem app_rejects_long_le_short_witness :
    40 ≤ 100 ∧
      (appMain (DownloadResult.success (DataFrame.mk [10] none none)) 100 40 =
          AppResult.configError ∧
        appMain (DownloadResult.success (DataFrame.mk [10] none none)) 100 40 =
          appMain DownloadResult.failure 100 40) :=
  ⟨by norm_num,
    app_rejects_long_le_short (DownloadResult.success (DataFrame.mk [10] none none)) 100 40
      (by norm_num)⟩

/-- C7: an empty download and a transport failure are both mapped to `None`
by `fetch_data` and treated identically downstream: both entry points halt
with no moving averages, no signals and no partial result. -/
theorem data_unavailable_halts (short_window long_window : ℕ) (d : DataFrame)
    (hempty : d.close = []) :
    fetch_data (DownloadResult.success d) = none ∧
    fetch_data DownloadResult.failure = none ∧
    run_strategy (DownloadResult.success d) short_window long_window = none ∧
    run_strategy DownloadResult.failure short_window long_window = none ∧
    (short_window < long_window →
      appMain (DownloadResult.success d) short_window long_window = AppResult.dataError ∧
      appMain DownloadResult.failure short_window long_window = AppResult.dataError) := by
  have hf : fetch_data (DownloadResult.success d) = none := by
    simp [fetch_data, hempty]
  refine ⟨hf, rfl, ?_, rfl, fun hw => ⟨?_, ?_⟩⟩
  · rw [run_strategy, hf]
  · rw [appMain, if_neg (by omega), hf]
  · rw [appMain, if_neg (by omega)]
    rfl

theorem data_unavailable_halts_witness :
    (DataFrame.mk ([] : List ℚ) none none).close = [] ∧
      (fetch_data (DownloadResult.success (DataFrame.mk ([] : List ℚ) none none)) = none ∧
        fetch_data DownloadResult.failure = none ∧
        run_strategy (DownloadResult.success (DataFrame.mk ([] : List ℚ) none none)) 40 100 =
          none ∧
        run_strategy DownloadResult.failure 40 100 = none ∧
        (40 < 100 →
          appMain (DownloadResult.success (DataFrame.mk ([] : List ℚ) none none)) 40 100 =
              AppResult.dataError ∧
            appMain DownloadResult.failure 40 100 = AppResult.dataError)) :=
  ⟨rfl, data_unavailable_halts 40 100 (DataFrame.mk ([] : List ℚ) none none) rfl⟩

/-- C8: the composed pipeline is a pure function of the close-price series
and the two windows: any two frames carrying the same close prices (whatever
stale SMA columns they hold) produce identical signal rows and identical
derived events, so re-running on the same input reproduces the output. -/
theorem pipeline_pure_function_of_close (d₁ d₂ : DataFrame) (short_window long_window : ℕ)
    (h : d₁.close = d₂.close) :
    pipeline d₁ short_window long_window = pipeline d₂ short_window long_window := by
  have heq : add_moving_averages d₁ short_window long_window =
      add_moving_averages d₂ short_window long_window := by
    cases d₁
    cases d₂
    simp only [add_moving_averages] at *
    simp [h]
  rw [pipeline, pipeline, heq]

theorem pipeline_pure_function_of_close_witness :
    (DataFrame.mk [10] (some [99]) none).close = (DataFrame.mk [10] none (some [5])).close ∧
      pipeline (DataFrame.mk [10] (some [99]) none) 2 4 =
        pipeline (DataFrame.mk [10] none (some [5])) 2 4 :=
  ⟨rfl,
    pipeline_pure_function_of_close (DataFrame.mk [10] (some [99]) none)
      (DataFrame.mk [10] none (some [5])) 2 4 rfl⟩

/-- C9 counterexample: `add_moving_averages` is not free of side effects on
its input: it assigns the two SMA columns into the argument frame itself,
so the frame observed after the call differs from the frame passed in. -/
theorem add_moving_averages_mutates :
    add_moving_averages (DataFrame.mk [10] none none) 2 4 ≠
      DataFrame.mk [10] none none := by
  intro h
  have hcol := congrArg DataFrame.smaShort h
  simp [add_moving_averages] at hcol

/-- C9 amended: `add_moving_averages` is deterministic and value-determined
by its arguments, and it leaves the close prices untouched, but it is not
side-effect free: it installs the two SMA columns in the input frame in
place and returns that same frame. -/
theorem add_moving_averages_frame (data : DataFrame) (short_window long_window : ℕ) :
    (add_moving_averages data short_window long_window).close = data.close ∧
    (add_moving_averages data short_window long_window).smaShort =
      some (rollingMean short_window data.close) ∧
    (add_moving_averages data short_window long_window).smaLong =
      some (rollingMean long_window data.close) ∧
    add_moving_averages_post data short_window long_window =
      add_moving_averages data short_window long_window :=
  ⟨rfl, rfl, rfl, rfl⟩

/-- C10: on every frame produced by `add_moving_averages`, the signal
generator succeeds and returns a frame over the same index set: price is
the close column, the two SMA columns are copied through unchanged, every
column of the result has the length of the input, and the input frame is
left unmodified. -/
theorem generate_signals_aligned (data : DataFrame) (short_window long_window : ℕ) :
    ∃ sig, generate_signals (add_moving_averages data short_window long_window) = some sig ∧
      sig.price = data.close ∧
      sig.smaShort = rollingMean short_window data.close ∧
      sig.smaLong = rollingMean long_window data.close ∧
      sig.price.length = data.close.length ∧
      sig.smaShort.length = data.close.length ∧
      sig.smaLong.length = data.close.length ∧
      sig.signal.length = data.close.length ∧
      sig.positions.length = data.close.length ∧
      generate_signals_post (add_moving_averages data short_window long_window) =
        add_moving_averages data short_window long_window := by
  refine ⟨{ price := data.close
            smaShort := rollingMean short_window data.close
            smaLong := rollingMean long_window data.close
            signal := signalOf (rollingMean short_window data.close)
              (rollingMean long_window data.close)
            positions := seriesDiff (signalOf (rollingMean short_window data.close)
              (rollingMean long_window data.close)) },
    rfl, rfl, rfl, rfl, rfl, rollingMean_length _ _, rollingMean_length _ _, ?_, ?_, rfl⟩
  · simp [signalOf_length, rollingMean_length]
  · simp [seriesDiff_length, signalOf_length, rollingMean_length]

/-- C2: on every signals frame the generator emits, entry `i` of the signal
column is 1.0 exactly when the short SMA strictly exceeds the long SMA at
`i` and 0.0 otherwise; in particular every signal value is 0.0 or 1.0 and
equality of the two SMAs yields 0.0. -/
theorem signal_threshold (data : DataFrame) (sig : Signals) (ss sl : List ℚ)
    (hss : data.smaShort = some ss) (hsl : data.smaLong = some sl)
    (hgen : generate_signals data = some sig) :
    ∀ i, i < sig.signal.length →
      sig.signal[i]? = some (if sl.getD i 0 < ss.getD i 0 then 1 else 0) ∧
      (sig.signal.getD i 0 = 0 ∨ sig.signal.getD i 0 = 1) ∧
      (sig.signal.getD i 0 = 1 ↔ sl.getD i 0 < ss.getD i 0) ∧
      (ss.getD i 0 = sl.getD i 0 → sig.signal.getD i 0 = 0) := by
  obtain ⟨ss', sl', hss', hsl', hrec⟩ := generate_signals_some hgen
  rw [hss] at hss'
  rw [hsl] at hsl'
  obtain rfl := Option.some.inj hss'
  obtain rfl := Option.some.inj hsl'
  subst hrec
  intro i hi
  dsimp only at hi ⊢
  have h1 : i < ss.length := by
    rw [signalOf_length] at hi
    omega
  have h2 : i < sl.length := by
    rw [signalOf_length] at hi
    omega
  have hidx := signalOf_getElem? ss sl i h1 h2
  have hval : (signalOf ss sl).getD i 0 = if sl.getD i 0 < ss.getD i 0 then 1 else 0 := by
    rw [List.getD_eq_getElem?_getD, hidx]
    rfl
  refine ⟨hidx, ?_, ?_, ?_⟩
  · rw [hval]
    by_cases hlt : sl.getD i 0 < ss.getD i 0
    · rw [if_pos hlt]
      exact Or.inr rfl
    · rw [if_neg hlt]
      exact Or.inl rfl
  · rw [hval]
    by_cases hlt : sl.getD i 0 < ss.getD i 0
    · simp [hlt]
    · simp only [hlt, if_false, iff_false]
      norm_num [hlt]
  · intro heq
    rw [hval, if_neg (by rw [heq]; exact lt_irrefl _)]

theorem signal_threshold_witness :
    (DataFrame.mk [1, 2, 3, 4] (some [0, 1, 1, 0]) (some [0, 0, 1, 1])).smaShort =
        some [0, 1, 1, 0] ∧
      (DataFrame.mk [1, 2, 3, 4] (some [0, 1, 1, 0]) (some [0, 0, 1, 1])).smaLong =
        some [0, 0, 1, 1] ∧
      generate_signals (DataFrame.mk [1, 2, 3, 4] (some [0, 1, 1, 0]) (some [0, 0, 1, 1])) =
        some (Signals.mk [1, 2, 3, 4] [0, 1, 1, 0] [0, 0, 1, 1] [0, 1, 0, 0]
          [none, some 1, some (-1), some 0]) ∧
      ∀ i,
        i < (Signals.mk [1, 2, 3, 4] [0, 1, 1, 0] [0, 0, 1, 1] [0, 1, 0, 0]
            [none, some 1, some (-1), some 0] : Signals).signal.length →
          (Signals.mk [1, 2, 3, 4] [0, 1, 1, 0] [0, 0, 1, 1] [0, 1, 0, 0]
              [none, some 1, some (-1), some 0] : Signals).signal[i]? =
            some (if List.getD ([0, 0, 1, 1] : List ℚ) i 0 < List.getD ([0, 1, 1, 0] : List ℚ) i 0 then 1 else 0) ∧
          ((Signals.mk [1, 2, 3, 4] [0, 1, 1, 0] [0, 0, 1, 1] [0, 1, 0, 0]
                [none, some 1, some (-1), some 0] : Signals).signal.getD i 0 = 0 ∨
            (Signals.mk [1, 2, 3, 4] [0, 1, 1, 0] [0, 0, 1, 1] [0, 1, 0, 0]
                [none, some 1, some (-1), some 0] : Signals).signal.getD i 0 = 1) ∧
          ((Signals.mk [1, 2, 3, 4] [0, 1, 1, 0] [0, 0, 1, 1] [0, 1, 0, 0]
                [none, some 1, some (-1), some 0] : Signals).signal.getD i 0 = 1 ↔
            List.getD ([0, 0, 1, 1] : List ℚ) i 0 < List.getD ([0, 1, 1, 0] : List ℚ) i 0) ∧
          (List.getD ([0, 1, 1, 0] : List ℚ) i 0 = List.getD ([0, 0, 1, 1] : List ℚ) i 0 →
            (Signals.mk [1, 2, 3, 4] [0, 1, 1, 0] [0, 0, 1, 1] [0, 1, 0, 0]
                [none, some 1, some (-1), some 0] : Signals).signal.getD i 0 = 0) :=
  ⟨rfl, rfl, by norm_num [generate_signals, signalOf, seriesDiff, diffFrom],
    signal_threshold (DataFrame.mk [1, 2, 3, 4] (some [0, 1, 1, 0]) (some [0, 0, 1, 1]))
      (Signals.mk [1, 2, 3, 4] [0, 1, 1, 0] [0, 0, 1, 1] [0, 1, 0, 0]
        [none, some 1, some (-1), some 0]) [0, 1, 1, 0] [0, 0, 1, 1] rfl rfl
      (by norm_num [generate_signals, signalOf, seriesDiff, diffFrom])⟩

/-- C5: on every signals frame the generator emits, the positions column is
the first difference of the signal column: entry `i ≥ 1` is
`signal[i] - signal[i-1]`, which is always -1.0, 0.0 or 1.0, and entry 0 is
the NaN sentinel, which in particular differs from the flat value 0.0. -/
theorem position_first_difference (data : DataFrame) (sig : Signals)
    (hgen : generate_signals data = some sig) :
    sig.positions.length = sig.signal.length ∧
    (∀ i, 1 ≤ i → i < sig.signal.length →
      sig.positions[i]? = some (some (sig.signal.getD i 0 - sig.signal.getD (i - 1) 0)) ∧
      (sig.signal.getD i 0 - sig.signal.getD (i - 1) 0 = -1 ∨
        sig.signal.getD i 0 - sig.signal.getD (i - 1) 0 = 0 ∨
        sig.signal.getD i 0 - sig.signal.getD (i - 1) 0 = 1)) ∧
    (sig.signal ≠ [] → sig.positions[0]? = some none ∧ sig.positions[0]? ≠ some (some 0)) := by
  obtain ⟨ss, sl, hss, hsl, hrec⟩ := generate_signals_some hgen
  subst hrec
  dsimp only
  refine ⟨seriesDiff_length _, fun i h1 h2 => ?_, fun hne => ?_⟩
  · have hi1 : i - 1 < (signalOf ss sl).length := by omega
    have hv : (signalOf ss sl).getD i 0 = 0 ∨ (signalOf ss sl).getD i 0 = 1 := by
      rw [List.getD_eq_getElem _ _ h2]
      exact signalOf_mem (List.getElem_mem h2)
    have hv1 : (signalOf ss sl).getD (i - 1) 0 = 0 ∨ (signalOf ss sl).getD (i - 1) 0 = 1 := by
      rw [List.getD_eq_getElem _ _ hi1]
      exact signalOf_mem (List.getElem_mem hi1)
    refine ⟨seriesDiff_getElem?_succ _ h1 h2, ?_⟩
    rcases hv with h | h <;> rcases hv1 with g | g <;> rw [h, g] <;> norm_num
  · refine ⟨seriesDiff_getElem?_zero hne, ?_⟩
    rw [seriesDiff_getElem?_zero hne]
    simp

theorem position_first_difference_witness :
    generate_signals (DataFrame.mk [1, 2, 3, 4] (some [0, 1, 1, 0]) (some [0, 0, 1, 1])) =
        some (Signals.mk [1, 2, 3, 4] [0, 1, 1, 0] [0, 0, 1, 1] [0, 1, 0, 0]
          [none, some 1, some (-1), some 0]) ∧
      ((Signals.mk [1, 2, 3, 4] [0, 1, 1, 0] [0, 0, 1, 1] [0, 1, 0, 0]
            [none, some 1, some (-1), some 0] : Signals).positions.length =
          (Signals.mk [1, 2, 3, 4] [0, 1, 1, 0] [0, 0, 1, 1] [0, 1, 0, 0]
            [none, some 1, some (-1), some 0] : Signals).signal.length ∧
        (∀ i, 1 ≤ i →
          i < (Signals.mk [1, 2, 3, 4] [0, 1, 1, 0] [0, 0, 1, 1] [0, 1, 0, 0]
              [none, some 1, some (-1), some 0] : Signals).signal.length →
            (Signals.mk [1, 2, 3, 4] [0, 1, 1, 0] [0, 0, 1, 1] [0, 1, 0, 0]
                [none, some 1, some (-1), some 0] : Signals).positions[i]? =
              some (some ((Signals.mk [1, 2, 3, 4] [0, 1, 1, 0] [0, 0, 1, 1] [0, 1, 0, 0]
                  [none, some 1, some (-1), some 0] : Signals).signal.getD i 0 -
                (Signals.mk [1, 2, 3, 4] [0, 1, 1, 0] [0, 0, 1, 1] [0, 1, 0, 0]
                  [none, some 1, some (-1), some 0] : Signals).signal.getD (i - 1) 0)) ∧
            ((Signals.mk [1, 2, 3, 4] [0, 1, 1, 0] [0, 0, 1, 1] [0, 1, 0, 0]
                  [none, some 1, some (-1), some 0] : Signals).signal.getD i 0 -
                (Signals.mk [1, 2, 3, 4] [0, 1, 1, 0] [0, 0, 1, 1] [0, 1, 0, 0]
                  [none, some 1, some (-1), some 0] : Signals).signal.getD (i - 1) 0 = -1 ∨
              (Signals.mk [1, 2, 3, 4] [0, 1, 1, 0] [0, 0, 1, 1] [0, 1, 0, 0]
                  [none, some 1, some (-1), some 0] : Signals).signal.getD i 0 -
                (Signals.mk [1, 2, 3, 4] [0, 1, 1, 0] [0, 0, 1, 1] [0, 1, 0, 0]
                  [none, some 1, some (-1), some 0] : Signals).signal.getD (i - 1) 0 = 0 ∨
              (Signals.mk [1, 2, 3, 4] [0, 1, 1, 0] [0, 0, 1, 1] [0, 1, 0, 0]
                  [none, some 1, some (-1), some 0] : Signals).signal.getD i 0 -
                (Signals.mk [1, 2, 3, 4] [0, 1, 1, 0] [0, 0, 1, 1] [0, 1, 0, 0]
                  [none, some 1, some (-1), some 0] : Signals).signal.getD (i - 1) 0 = 1)) ∧
        ((Signals.mk [1, 2, 3, 4] [0, 1, 1, 0] [0, 0, 1, 1] [0, 1, 0, 0]
              [none, some 1, some (-1), some 0] : Signals).signal ≠ [] →
          (Signals.mk [1, 2, 3, 4] [0, 1, 1, 0] [0, 0, 1, 1] [0, 1, 0, 0]
              [none, some 1, some (-1), some 0] : Signals).positions[0]? = some none ∧
            (Signals.mk [1, 2, 3, 4] [0, 1, 1, 0] [0, 0, 1, 1] [0, 1, 0, 0]
                [none, some 1, some (-1), some 0] : Signals).positions[0]? ≠
              some (some 0))) :=
  ⟨by norm_num [generate_signals, signalOf, seriesDiff, diffFrom],
    position_first_difference
      (DataFrame.mk [1, 2, 3, 4] (some [0, 1, 1, 0]) (some [0, 0, 1, 1]))
      (Signals.mk [1, 2, 3, 4] [0, 1, 1, 0] [0, 0, 1, 1] [0, 1, 0, 0]
        [none, some 1, some (-1), some 0])
      (by norm_num [generate_signals, signalOf, seriesDiff, diffFrom])⟩

lemma tradeOfPosition_eq_buy {p : Option ℚ} :
    tradeOfPosition p = some TradeAction.BUY ↔ p = some 1 := by
  by_cases h1 : p = some 1
  · simp [tradeOfPosition, h1]
  · by_cases h2 : p = some (-1) <;> simp [tradeOfPosition, h1, h2] <;> decide

lemma tradeOfPosition_eq_sell {p : Option ℚ} :
    tradeOfPosition p = some TradeAction.SELL ↔ p = some (-1) := by
  by_cases h1 : p = some 1
  · subst h1
    norm_num [tradeOfPosition]
    decide
  · by_cases h2 : p = some (-1) <;> simp [tradeOfPosition, h1, h2] <;> norm_num

/-- C4: on every signals frame the generator emits, `execute_trades`
announces a BUY exactly at the row indices whose positions value is 1.0 and
a SELL exactly at those whose value is -1.0, and nothing anywhere else; the
app's trade log selects exactly the same events, and the first row (whose
positions value is the NaN sentinel) never produces an event. -/
theorem trade_events_exact (data : DataFrame) (sig : Signals)
    (hgen : generate_signals data = some sig) :
    (∀ i, ((i, TradeAction.BUY) ∈ execute_trades sig ↔ sig.positions[i]? = some (some 1)) ∧
      ((i, TradeAction.SELL) ∈ execute_trades sig ↔ sig.positions[i]? = some (some (-1)))) ∧
    trade_log sig = execute_trades sig ∧
    ∀ a, (0, a) ∉ execute_trades sig := by
  have hmem : ∀ (j : ℕ) (a : TradeAction),
      (j, a) ∈ execute_trades sig ↔
        ∃ p, sig.positions[j]? = some p ∧ tradeOfPosition p = some a := by
    intro j a
    rw [execute_trades, mem_tradeEventsFrom sig.positions 0 j a]
    simp
  refine ⟨fun i => ⟨?_, ?_⟩, trade_log_eq_execute_trades sig, ?_⟩
  · rw [hmem i TradeAction.BUY]
    constructor
    · rintro ⟨p, hp, htr⟩
      rwa [tradeOfPosition_eq_buy.1 htr] at hp
    · intro hp
      exact ⟨some 1, hp, tradeOfPosition_eq_buy.2 rfl⟩
  · rw [hmem i TradeAction.SELL]
    constructor
    · rintro ⟨p, hp, htr⟩
      rwa [tradeOfPosition_eq_sell.1 htr] at hp
    · intro hp
      exact ⟨some (-1), hp, tradeOfPosition_eq_sell.2 rfl⟩
  · intro a hm
    rcases (hmem 0 a).1 hm with ⟨p, hp, htr⟩
    obtain ⟨ss, sl, hss, hsl, hrec⟩ := generate_signals_some hgen
    subst hrec
    dsimp only at hp
    cases hsig : signalOf ss sl with
    | nil =>
        rw [hsig] at hp
        simp [seriesDiff] at hp
    | cons s rest =>
        rw [hsig, seriesDiff_getElem?_zero (List.cons_ne_nil s rest)] at hp
        obtain rfl := Option.some.inj hp
        simp [tradeOfPosition] at htr

theorem trade_events_exact_witness :
    generate_signals (DataFrame.mk [1, 2, 3, 4] (some [0, 1, 1, 0]) (some [0, 0, 1, 1])) =
        some (Signals.mk [1, 2, 3, 4] [0, 1, 1, 0] [0, 0, 1, 1] [0, 1, 0, 0]
          [none, some 1, some (-1), some 0]) ∧
      ((∀ i,
          ((i, TradeAction.BUY) ∈
              execute_trades (Signals.mk [1, 2, 3, 4] [0, 1, 1, 0] [0, 0, 1, 1] [0, 1, 0, 0]
                [none, some 1, some (-1), some 0]) ↔
            (Signals.mk [1, 2, 3, 4] [0, 1, 1, 0] [0, 0, 1, 1] [0, 1, 0, 0]
                [none, some 1, some (-1), some 0] : Signals).positions[i]? = some (some 1)) ∧
          ((i, TradeAction.SELL) ∈
              execute_trades (Signals.mk [1, 2, 3, 4] [0, 1, 1, 0] [0, 0, 1, 1] [0, 1, 0, 0]
                [none, some 1, some (-1), some 0]) ↔
            (Signals.mk [1, 2, 3, 4] [0, 1, 1, 0] [0, 0, 1, 1] [0, 1, 0, 0]
                [none, some 1, some (-1), some 0] : Signals).positions[i]? =
              some (some (-1)))) ∧
        trade_log (Signals.mk [1, 2, 3, 4] [0, 1, 1, 0] [0, 0, 1, 1] [0, 1, 0, 0]
            [none, some 1, some (-1), some 0]) =
          execute_trades (Signals.mk [1, 2, 3, 4] [0, 1, 1, 0] [0, 0, 1, 1] [0, 1, 0, 0]
            [none, some 1, some (-1), some 0]) ∧
        ∀ a, (0, a) ∉
          execute_trades (Signals.mk [1, 2, 3, 4] [0, 1, 1, 0] [0, 0, 1, 1] [0, 1, 0, 0]
            [none, some 1, some (-1), some 0])) :=
  ⟨by norm_num [generate_signals, signalOf, seriesDiff, diffFrom],
    trade_events_exact (DataFrame.mk [1, 2, 3, 4] (some [0, 1, 1, 0]) (some [0, 0, 1, 1]))
      (Signals.mk [1, 2, 3, 4] [0, 1, 1, 0] [0, 0, 1, 1] [0, 1, 0, 0]
        [none, some 1, some (-1), some 0])
      (by norm_num [generate_signals, signalOf, seriesDiff, diffFrom])⟩

/-- C6: on every signals frame the generator emits whose signal column is
non-empty, the number of BUY events minus the number of SELL events equals
the last signal value minus the first (the telescoping sum of the
positions column). -/
theorem buy_sell_count_telescopes (data : DataFrame) (sig : Signals)
    (hgen : generate_signals data = some sig) (hne : sig.signal ≠ []) :
    ∃ a b, sig.signal.head? = some a ∧ sig.signal.getLast? = some b ∧
      (((execute_trades sig).countP (fun e => decide (e.2 = TradeAction.BUY)) : ℚ) -
        ((execute_trades sig).countP (fun e => decide (e.2 = TradeAction.SELL)) : ℚ)) =
        b - a := by
  obtain ⟨ss, sl, hss, hsl, hrec⟩ := generate_signals_some hgen
  subst hrec
  dsimp only at hne ⊢
  rw [execute_trades]
  dsimp only
  cases hsig : signalOf ss sl with
  | nil => exact absurd hsig hne
  | cons s rest =>
      have hs01 : s = 0 ∨ s = 1 :=
        signalOf_mem (by rw [hsig]; exact List.mem_cons_self s rest)
      have hrest : ∀ y ∈ rest, y = 0 ∨ y = 1 := fun y hy =>
        signalOf_mem (by rw [hsig]; exact List.mem_cons_of_mem s hy)
      refine ⟨s, (s :: rest).getLast (List.cons_ne_nil s rest), rfl,
        List.getLast?_eq_getLast _ _, ?_⟩
      rw [countP_tradeEventsFrom TradeAction.BUY _ 0, countP_tradeEventsFrom TradeAction.SELL _ 0]
      have hsd : seriesDiff (s :: rest) = none :: diffFrom s rest := rfl
      rw [hsd, List.countP_cons, List.countP_cons]
      have h0 : tradeOfPosition none = none := by simp [tradeOfPosition]
      simp only [h0]
      norm_num
      rw [if_neg (show ¬ (none : Option TradeAction) = some TradeAction.BUY by decide),
        if_neg (show ¬ (none : Option TradeAction) = some TradeAction.SELL by decide),
        add_zero, add_zero]
      exact diffFrom_buy_sub_sell rest s hs01 hrest

theorem buy_sell_count_telescopes_witness :
    generate_signals (DataFrame.mk [1, 2, 3, 4] (some [0, 1, 1, 0]) (some [0, 0, 1, 1])) =
        some (Signals.mk [1, 2, 3, 4] [0, 1, 1, 0] [0, 0, 1, 1] [0, 1, 0, 0]
          [none, some 1, some (-1), some 0]) ∧
      (Signals.mk [1, 2, 3, 4] [0, 1, 1, 0] [0, 0, 1, 1] [0, 1, 0, 0]
          [none, some 1, some (-1), some 0] : Signals).signal ≠ [] ∧
      ∃ a b,
        (Signals.mk [1, 2, 3, 4] [0, 1, 1, 0] [0, 0, 1, 1] [0, 1, 0, 0]
            [none, some 1, some (-1), some 0] : Signals).signal.head? = some a ∧
        (Signals.mk [1, 2, 3, 4] [0, 1, 1, 0] [0, 0, 1, 1] [0, 1, 0, 0]
            [none, some 1, some (-1), some 0] : Signals).signal.getLast? = some b ∧
        (((execute_trades (Signals.mk [1, 2, 3, 4] [0, 1, 1, 0] [0, 0, 1, 1] [0, 1, 0, 0]
              [none, some 1, some (-1), some 0])).countP
            (fun e => decide (e.2 = TradeAction.BUY)) : ℚ) -
          ((execute_trades (Signals.mk [1, 2, 3, 4] [0, 1, 1, 0] [0, 0, 1, 1] [0, 1, 0, 0]
              [none, some 1, some (-1), some 0])).countP
            (fun e => decide (e.2 = TradeAction.SELL)) : ℚ)) = b - a :=
  ⟨by norm_num [generate_signals, signalOf, seriesDiff, diffFrom], by simp,
    buy_sell_count_telescopes
      (DataFrame.mk [1, 2, 3, 4] (some [0, 1, 1, 0]) (some [0, 0, 1, 1]))
      (Signals.mk [1, 2, 3, 4] [0, 1, 1, 0] [0, 0, 1, 1] [0, 1, 0, 0]
        [none, some 1, some (-1), some 0])
      (by norm_num [generate_signals, signalOf, seriesDiff, diffFrom]) (by simp)⟩

end AlgoTrading
